import Mathlib

/-!
# Helios server: shallow embedding of the stats sampler, health probe,
log demultiplexer, stats aggregator and bulk/mutating container operations.

Machine integers (`uint64`) are modelled as `Nat` with explicit wrapping
(`% 2^64`) at the operations where Go wraps.  `float64` values are modelled
exactly: the quantities the verified claims touch are either integers, or
quotients/products whose zero-ness and exact value at the inputs of interest
are preserved by IEEE-754 double arithmetic (no rounding can turn a nonzero
value into zero or vice versa at these magnitudes).  The one place where a
division by zero can occur — the memory-percentage computation — uses an
explicit codomain `GoFloat` with `nan` and `inf` values mirroring IEEE
semantics of `x / 0.0`.
-/

/-- Modulus of Go's `uint64` arithmetic. -/
def U64 : Nat := 2 ^ 64

/-- Go `uint64` subtraction `a - b`: wraps modulo `2^64`.
Used by `CalculateCPUPercent` (stats.go lines 9-10), whose operands
`TotalUsage`, `SystemUsage` are `uint64` fields. -/
def u64sub (a b : Nat) : Nat := (a + U64 - b % U64) % U64

/-- Go `uint64` addition `a + b`: wraps modulo `2^64`. -/
def u64add (a b : Nat) : Nat := (a + b) % U64

/-- A Go `float64` value restricted to the values reachable in the embedded
code paths: an exact nonnegative finite value, `NaN`, or `+Inf`. -/
inductive GoFloat where
  | finite (q : ℚ)
  | nan
  | inf
deriving DecidableEq, Repr

/-- IEEE division `float64(a) / float64(b)` for nonnegative integer operands:
`0/0 = NaN`, `x/0 = +Inf` for `x > 0`, exact quotient otherwise. -/
def fdiv (a b : Nat) : GoFloat :=
  if b = 0 then (if a = 0 then GoFloat.nan else GoFloat.inf)
  else GoFloat.finite ((a : ℚ) / (b : ℚ))

/-- IEEE multiplication of a `GoFloat` by the positive constant `100.0`:
`NaN` and `+Inf` absorb. -/
def fmul100 : GoFloat → GoFloat
  | GoFloat.finite q => GoFloat.finite (q * 100)
  | GoFloat.nan => GoFloat.nan
  | GoFloat.inf => GoFloat.inf

/-- IEEE comparison `f > t` for a `GoFloat` against a finite threshold:
`NaN > t` is false, `+Inf > t` is true. -/
def fgt : GoFloat → ℚ → Bool
  | GoFloat.finite q, t => decide (t < q)
  | GoFloat.nan, _ => false
  | GoFloat.inf, _ => true

/-- One block-io entry of a Docker stats response
(`BlkioStats.IoServiceBytesRecursive`): an operation name and a byte count. -/
structure BlkioEntry where
  op : String
  value : Nat
deriving DecidableEq, Repr

/-- One network interface's counters of a Docker stats response. -/
structure NetworkEntry where
  rxBytes : Nat
  txBytes : Nat
deriving DecidableEq, Repr

/-- The fields of Docker's `container.StatsResponse` read by the Helios
stats sampler and health probe.  `percpuUsage` stands for
`CPUStats.CPUUsage.PercpuUsage`; only its length is read. -/
structure StatsResponse where
  cpuTotalUsage : Nat
  preCpuTotalUsage : Nat
  systemUsage : Nat
  preSystemUsage : Nat
  percpuUsage : List Nat
  memoryUsage : Nat
  memoryLimit : Nat
  networks : List NetworkEntry
  blkioEntries : List BlkioEntry
deriving DecidableEq, Repr

/-- `statsutil.CalculateCPUPercent` (stats.go lines 8-16).
`cpuDelta` and `systemDelta` are computed by Go `uint64` subtraction
(wrapping) and then converted to `float64`; the guard requires both to be
strictly positive. -/
def CalculateCPUPercent (s : StatsResponse) : ℚ :=
  let cpuDelta : ℚ := (u64sub s.cpuTotalUsage s.preCpuTotalUsage : ℚ)
  let systemDelta : ℚ := (u64sub s.systemUsage s.preSystemUsage : ℚ)
  if 0 < systemDelta ∧ 0 < cpuDelta then
    cpuDelta / systemDelta * (s.percpuUsage.length : ℚ) * 100
  else 0

/-- `statsutil.GetNetworkRx` (stats.go lines 19-25): `total += v.RxBytes`
over all interfaces, `uint64` accumulation. -/
def GetNetworkRx (s : StatsResponse) : Nat :=
  s.networks.foldl (fun total v => u64add total v.rxBytes) 0

/-- `statsutil.GetNetworkTx` (stats.go lines 28-34). -/
def GetNetworkTx (s : StatsResponse) : Nat :=
  s.networks.foldl (fun total v => u64add total v.txBytes) 0

/-- `statsutil.GetBlockRead` (stats.go lines 37-45): adds `bioEntry.Value`
exactly when `bioEntry.Op == "Read" || bioEntry.Op == "read"`. -/
def GetBlockRead (s : StatsResponse) : Nat :=
  s.blkioEntries.foldl
    (fun total e => if e.op = "Read" ∨ e.op = "read" then u64add total e.value else total) 0

/-- `statsutil.GetBlockWrite` (stats.go lines 48-56): adds `bioEntry.Value`
exactly when `bioEntry.Op == "Write" || bioEntry.Op == "write"`. -/
def GetBlockWrite (s : StatsResponse) : Nat :=
  s.blkioEntries.foldl
    (fun total e => if e.op = "Write" ∨ e.op = "write" then u64add total e.value else total) 0

/-- The memory-percentage expression shared verbatim by
`getContainerStats` (container.go line 358) and `checkContainer`
(main.go line 289): `float64(usage) / float64(limit) * 100.0`, with no
guard on `limit`. -/
def memoryPercentGo (usage limit : Nat) : GoFloat :=
  fmul100 (fdiv usage limit)

/-- The derived per-container statistics record `ContainerStats`
(container.go lines 87-96).  `memoryPercent` is the only field whose
computation can produce a non-finite `float64`. -/
structure ContainerStats where
  cpuPercent : ℚ
  memoryUsage : Nat
  memoryLimit : Nat
  memoryPercent : GoFloat
  networkRx : Nat
  networkTx : Nat
  blockRead : Nat
  blockWrite : Nat
deriving DecidableEq, Repr

/-- `ContainerService.getContainerStats` (container.go lines 341-372), the
pure derivation from a decoded `StatsResponse` (transport and JSON decoding
errors short-circuit before this point and yield no stats record). -/
def getContainerStats (s : StatsResponse) : ContainerStats :=
  { cpuPercent := CalculateCPUPercent s
    memoryUsage := s.memoryUsage
    memoryLimit := s.memoryLimit
    memoryPercent := memoryPercentGo s.memoryUsage s.memoryLimit
    networkRx := GetNetworkRx s
    networkTx := GetNetworkTx s
    blockRead := GetBlockRead s
    blockWrite := GetBlockWrite s }

/-- The status classification of `checkContainer` (main.go lines 285-296)
for a successfully sampled container: `"resource_critical"` when
`cpuPercent > cfg.CPUThreshold || memoryPercent > cfg.MemoryThreshold`
under IEEE comparison, else `"healthy"`. -/
def checkContainerStatus (s : StatsResponse) (cpuThreshold memoryThreshold : ℚ) : String :=
  let cpuPercent := CalculateCPUPercent s
  let memoryPercent := memoryPercentGo s.memoryUsage s.memoryLimit
  if cpuThreshold < cpuPercent ∨ fgt memoryPercent memoryThreshold then "resource_critical"
  else "healthy"

/-!
## Log demultiplexer

`LogService.GetLogs` (container.go lines 707-767) and the goroutine body of
`LogService.StreamLogs` (lines 643-700) share the same frame loop:
read 8 header bytes with `io.ReadFull`, decode the payload length from
bytes 4..7 as big-endian `uint32`, skip the frame when the length is 0,
read exactly that many payload bytes with `io.ReadFull`, and forward the
payload.  `io.ReadFull` semantics: it returns `io.EOF` when zero bytes were
available (the loop breaks, terminating normally) and `ErrUnexpectedEOF`
when some but not all requested bytes were available (the loop propagates
an error).  The input stream is a byte list; an event is the frame's first
header byte (the stream type, which the code forwards no further) paired
with the payload bytes. -/

/-- One step/recursion of the frame loop shared by `GetLogs` and
`StreamLogs`.  The result on `Except.error` carries the error message the
Go code wraps; on `Except.ok` it carries the emitted `(stream, payload)`
events in order. -/
def demuxLoop : List Nat → Except String (List (Nat × List Nat))
  | [] => Except.ok []
  | b0 :: _b1 :: _b2 :: _b3 :: b4 :: b5 :: b6 :: b7 :: rest =>
    if b4 * 2 ^ 24 + b5 * 2 ^ 16 + b6 * 2 ^ 8 + b7 = 0 then
      demuxLoop rest
    else if rest.isEmpty then
      Except.ok []
    else if rest.length < b4 * 2 ^ 24 + b5 * 2 ^ 16 + b6 * 2 ^ 8 + b7 then
      Except.error "failed to read log payload"
    else
      match demuxLoop (rest.drop (b4 * 2 ^ 24 + b5 * 2 ^ 16 + b6 * 2 ^ 8 + b7)) with
      | Except.ok evs =>
          Except.ok ((b0, rest.take (b4 * 2 ^ 24 + b5 * 2 ^ 16 + b6 * 2 ^ 8 + b7)) :: evs)
      | Except.error e => Except.error e
  | _ => Except.error "failed to read log header"
termination_by input => input.length
decreasing_by
  · simp; omega
  · simp [List.length_drop]; omega

/-- The byte string `GetLogs` returns on success: the concatenation of the
emitted payloads (container.go line 763 appends exactly `buf[:n]`). -/
def demuxOutput (evs : List (Nat × List Nat)) : List Nat :=
  (evs.map Prod.snd).foldr (fun a b => a ++ b) []

/-- A `LogFrame` of the daemon's multiplexed log transport:
a stream byte and a payload. -/
structure LogFrame where
  stream : Nat
  payload : List Nat
deriving DecidableEq, Repr

/-- Big-endian 4-byte encoding of a length `n < 2^32`, as the daemon emits
it in header bytes 4..7. -/
def encodeBE32 (n : Nat) : List Nat :=
  [n / 2 ^ 24 % 256, n / 2 ^ 16 % 256, n / 2 ^ 8 % 256, n % 256]

/-- The daemon's wire encoding of one frame:
`[stream, 0, 0, 0] ++ len_be ++ payload`. -/
def encodeFrame (f : LogFrame) : List Nat :=
  f.stream :: 0 :: 0 :: 0 :: (encodeBE32 f.payload.length ++ f.payload)

/-- A well-formed multiplexed input: the concatenation of encoded frames. -/
def encodeFrames : List LogFrame → List Nat
  | [] => []
  | f :: fs => encodeFrame f ++ encodeFrames fs

/-- The events the demultiplexer should emit for a frame list: zero-length
frames are skipped, every other frame yields its stream byte and payload. -/
def eventsOf : List LogFrame → List (Nat × List Nat)
  | [] => []
  | f :: fs => if f.payload = [] then eventsOf fs else (f.stream, f.payload) :: eventsOf fs

/-- Frame lengths expressible in the 4-byte header. -/
def wfFrames (fs : List LogFrame) : Prop :=
  ∀ f ∈ fs, f.payload.length < 2 ^ 32

instance (fs : List LogFrame) : Decidable (wfFrames fs) := by
  unfold wfFrames; infer_instance

/-!
## Stats aggregator refresh

`StatsCache.refresh` (container.go lines 946-1030).  The concurrent fan-out
delivers one `statsResult` per running container on a channel; the
collection loop is a left fold over the arrival order.  An errored sampler
(`result.err != nil`) is logged and skipped; a successful one is inserted
into the `newStats` map and added into the running `DashboardSummary`.
The map is modelled as an association list whose insert replaces any
existing binding (Go map assignment). -/

/-- The fleet summary `DashboardSummary` (container.go lines 99-107).
`uint64` totals accumulate with wrapping; `ContainerCount` is an `int`. -/
structure DashboardSummary where
  totalCPUPercent : ℚ
  totalMemoryUsage : Nat
  totalMemoryLimit : Nat
  totalMemoryPercent : ℚ
  totalNetworkRx : Nat
  totalNetworkTx : Nat
  containerCount : Nat
deriving DecidableEq, Repr

/-- The zero value `&DashboardSummary{}`. -/
def emptySummary : DashboardSummary :=
  ⟨0, 0, 0, 0, 0, 0, 0⟩

/-- Go map assignment `m[k] = v` on an association-list model: replaces an
existing binding for `k`, otherwise appends. -/
def mapSet (m : List (String × ContainerStats)) (k : String) (v : ContainerStats) :
    List (String × ContainerStats) :=
  if m.any (fun p => p.1 = k) then
    m.map (fun p => if p.1 = k then (k, v) else p)
  else m ++ [(k, v)]

/-- One iteration of the collection loop (container.go lines 1001-1018):
skip an errored result, otherwise insert into the map and accumulate the
summary. -/
def refreshStep (acc : List (String × ContainerStats) × DashboardSummary)
    (r : String × Option ContainerStats) :
    List (String × ContainerStats) × DashboardSummary :=
  match r.2 with
  | none => acc
  | some st =>
      (mapSet acc.1 r.1 st,
        { totalCPUPercent := acc.2.totalCPUPercent + st.cpuPercent
          totalMemoryUsage := u64add acc.2.totalMemoryUsage st.memoryUsage
          totalMemoryLimit := u64add acc.2.totalMemoryLimit st.memoryLimit
          totalMemoryPercent := acc.2.totalMemoryPercent
          totalNetworkRx := u64add acc.2.totalNetworkRx st.networkRx
          totalNetworkTx := u64add acc.2.totalNetworkTx st.networkTx
          containerCount := acc.2.containerCount + 1 })

/-- The collection loop of `refresh` over the channel results in arrival
order: `results` pairs each container id with `some stats` (sampler
succeeded) or `none` (sampler errored). -/
def refreshCollect (results : List (String × Option ContainerStats)) :
    List (String × ContainerStats) × DashboardSummary :=
  results.foldl refreshStep ([], emptySummary)

/-- The final memory-percent derivation of `refresh` (container.go lines
1021-1023): guarded by `TotalMemoryLimit > 0`. -/
def refreshFinalize (s : DashboardSummary) : DashboardSummary :=
  if 0 < s.totalMemoryLimit then
    { s with totalMemoryPercent :=
        (s.totalMemoryUsage : ℚ) / (s.totalMemoryLimit : ℚ) * 100 }
  else s

/-- The snapshot `refresh` publishes under the write lock: the new map and
the finalized summary. -/
def refreshSnapshot (results : List (String × Option ContainerStats)) :
    List (String × ContainerStats) × DashboardSummary :=
  let c := refreshCollect results
  (c.1, refreshFinalize c.2)

/-!
## Mutating operations, the action journal, and bulk operations

`ContainerService.StartContainer/StopContainer/RestartContainer/
RemoveContainer` (container.go lines 237-316) all follow the same shape:
inspect the container for its name, call the daemon, and return through
`logAction` (lines 318-338), which appends an `ActionLog` row, logs (but
ignores) any journal write failure, and returns the daemon error unchanged.
The daemon gateway is modelled by the functions the operation calls:
`inspect : id → name-or-error`, the mutating call `op : id → unit-or-error`,
and the journal append `repoCreate : row → unit-or-error`.  Errors are their
`err.Error()` strings. -/

/-- The `models.ActionLog` row as filled in by `logAction`. -/
structure ActionLog where
  actionType : String
  resourceType : String
  resourceID : String
  resourceName : String
  success : Bool
  errorMessage : String
deriving DecidableEq, Repr

/-- The `models.ActionLog` row `ContainerService.logAction` (container.go
lines 318-338) builds: the error message field is filled from the daemon
error when present.  `logAction` then attempts `actionLogRepo.Create`, logs
a failed append without acting on it, and returns the error it was handed;
the second component of `logAction`'s result is the process log output,
recording that the append failure is only logged. -/
def actionLogRow (actionType resourceType resourceID resourceName : String)
    (success : Bool) (err : Option String) : ActionLog :=
  { actionType := actionType
    resourceType := resourceType
    resourceID := resourceID
    resourceName := resourceName
    success := success
    errorMessage := match err with | some e => e | none => "" }

/-- The body of `logAction`: attempt the append on the built row, then
return the daemon error. -/
def logAction (repoCreate : ActionLog → Except String Unit)
    (actionType resourceType resourceID resourceName : String)
    (success : Bool) (err : Option String) : Option String × List String :=
  match repoCreate (actionLogRow actionType resourceType resourceID resourceName success err) with
  | Except.ok _ => (err, [])
  | Except.error logErr => (err, ["Failed to log action: " ++ logErr])

/-- `ContainerService.StartContainer` (container.go lines 237-253): the
returned error (`none` = nil). -/
def StartContainer (inspect : String → Except String String)
    (containerStart : String → Except String Unit)
    (repoCreate : ActionLog → Except String Unit) (containerID : String) : Option String :=
  match inspect containerID with
  | Except.error e => (logAction repoCreate "start" "container" containerID "" false (some e)).1
  | Except.ok name =>
    match containerStart containerID with
    | Except.error e =>
        (logAction repoCreate "start" "container" containerID name false (some e)).1
    | Except.ok _ => (logAction repoCreate "start" "container" containerID name true none).1

/-- `ContainerService.StopContainer` (container.go lines 256-274). -/
def StopContainer (inspect : String → Except String String)
    (containerStop : String → Except String Unit)
    (repoCreate : ActionLog → Except String Unit) (containerID : String) : Option String :=
  match inspect containerID with
  | Except.error e => (logAction repoCreate "stop" "container" containerID "" false (some e)).1
  | Except.ok name =>
    match containerStop containerID with
    | Except.error e =>
        (logAction repoCreate "stop" "container" containerID name false (some e)).1
    | Except.ok _ => (logAction repoCreate "stop" "container" containerID name true none).1

/-- `ContainerService.RestartContainer` (container.go lines 277-295). -/
def RestartContainer (inspect : String → Except String String)
    (containerRestart : String → Except String Unit)
    (repoCreate : ActionLog → Except String Unit) (containerID : String) : Option String :=
  match inspect containerID with
  | Except.error e =>
      (logAction repoCreate "restart" "container" containerID "" false (some e)).1
  | Except.ok name =>
    match containerRestart containerID with
    | Except.error e =>
        (logAction repoCreate "restart" "container" containerID name false (some e)).1
    | Except.ok _ => (logAction repoCreate "restart" "container" containerID name true none).1

/-- `ContainerService.RemoveContainer` (container.go lines 298-316); the
`force` flag is forwarded to the daemon call. -/
def RemoveContainer (inspect : String → Except String String)
    (containerRemove : String → Bool → Except String Unit)
    (repoCreate : ActionLog → Except String Unit) (containerID : String) (force : Bool) :
    Option String :=
  match inspect containerID with
  | Except.error e =>
      (logAction repoCreate "remove" "container" containerID "" false (some e)).1
  | Except.ok name =>
    match containerRemove containerID force with
    | Except.error e =>
        (logAction repoCreate "remove" "container" containerID name false (some e)).1
    | Except.ok _ => (logAction repoCreate "remove" "container" containerID name true none).1

/-- `service.BulkOperationResult` (container.go lines 474-479). -/
structure BulkOperationResult where
  containerID : String
  containerName : String
  success : Bool
  error : String
deriving DecidableEq, Repr

/-- The display name each bulk loop records: the inspect result, or the
zero value when inspect fails (container.go lines 521-524). -/
def bulkNameFor (inspect : String → Except String String) (containerID : String) : String :=
  match inspect containerID with
  | Except.ok n => n
  | Except.error _ => ""

/-- The per-id body shared by the bulk loops (container.go lines 515-536
for stop): inspect for the display name, run the single-container
operation, and record success or the error string. -/
def bulkResultFor (inspect : String → Except String String)
    (runOp : String → Option String) (containerID : String) : BulkOperationResult :=
  match runOp containerID with
  | some e => ⟨containerID, bulkNameFor inspect containerID, false, e⟩
  | none => ⟨containerID, bulkNameFor inspect containerID, true, ""⟩

/-- `ContainerService.BulkStopContainers` (container.go lines 511-539):
`results[i]` is filled from input index `i`, sequentially in input order. -/
def BulkStopContainers (inspect : String → Except String String)
    (containerStop : String → Except String Unit)
    (repoCreate : ActionLog → Except String Unit) (containerIDs : List String) :
    List BulkOperationResult :=
  containerIDs.map (bulkResultFor inspect (StopContainer inspect containerStop repoCreate))

/-- `ContainerService.BulkStartContainers` (container.go lines 482-509). -/
def BulkStartContainers (inspect : String → Except String String)
    (containerStart : String → Except String Unit)
    (repoCreate : ActionLog → Except String Unit) (containerIDs : List String) :
    List BulkOperationResult :=
  containerIDs.map (bulkResultFor inspect (StartContainer inspect containerStart repoCreate))

/-- `ContainerService.BulkRemoveContainers` (container.go lines 542-569). -/
def BulkRemoveContainers (inspect : String → Except String String)
    (containerRemove : String → Bool → Except String Unit)
    (repoCreate : ActionLog → Except String Unit) (containerIDs : List String) (force : Bool) :
    List BulkOperationResult :=
  containerIDs.map
    (bulkResultFor inspect (fun id => RemoveContainer inspect containerRemove repoCreate id force))

/-- `handler.countSuccessful` (container handler, lines 264-272). -/
def countSuccessful (results : List BulkOperationResult) : Nat :=
  results.foldl (fun count r => if r.success then count + 1 else count) 0

/-- `handler.countFailed` (container handler, lines 274-282). -/
def countFailed (results : List BulkOperationResult) : Nat :=
  results.foldl (fun count r => if r.success then count else count + 1) 0

/-!
## Log download / ZIP archive builder

`handler.DownloadLogs` (logs.go lines 119-141) reads only the `:id` path
parameter; it never reads the `tail` or `timestamps` query values its doc
comment advertises.  `LogService.CreateLogArchive` (container.go lines
770-811) takes no options argument and calls `GetLogs` with the literal
`LogStreamOptions{Timestamps: true, Tail: "all"}` (zero `Follow`, `Since`,
`Until`), then names the single archive entry
`<container_name>_<20060102-150405 timestamp>.log` from the inspected name
with its leading slash removed. -/

/-- `service.LogStreamOptions` (container.go lines 605-611). -/
structure LogStreamOptions where
  follow : Bool
  tail : String
  since : String
  untilTs : String
  timestamps : Bool
deriving DecidableEq, Repr

/-- The options `CreateLogArchive` passes to `GetLogs` (container.go lines
778-781), independent of the HTTP request: `DownloadLogs` forwards only the
container id and the response writer. -/
def downloadLogsArchiveOpts (_reqTail : String) (_reqTimestamps : Bool) : LogStreamOptions :=
  { follow := false, tail := "all", since := "", untilTs := "", timestamps := true }

/-- Leading-slash strip applied to the inspected container name
(container.go lines 791-794): `if len(name) > 0 && name[0] == '/' { name =
name[1:] }`, expressed on the character sequence. -/
def trimSlash (name : String) : String :=
  match name.data with
  | '/' :: rest => String.mk rest
  | _ => name

/-- The archive entry name `fmt.Sprintf("%s_%s.log", containerName,
timestamp)` (container.go lines 796-797); `ts` is the wall-clock timestamp
rendered in Go layout `20060102-150405` (`yyyyMMdd-HHmmss`). -/
def archiveEntryName (inspectedName ts : String) : String :=
  trimSlash inspectedName ++ "_" ++ ts ++ ".log"

/-!
## Spec-side definitions (for refinement comparison only)

These follow the specification's words, not the source, and exist solely to
be compared with the source-derived definitions above. -/

/-- ASCII-case-insensitive string comparison at character level. -/
def lowerEq (s t : String) : Bool := s.data.map Char.toLower == t.data

/-- The spec's reading of the block-read derivation (§4.B step 3: "sum
read/write entries whose `op` is case-insensitively `"read"`"). -/
def specBlockReadCI (s : StatsResponse) : Nat :=
  ((s.blkioEntries.filter (fun e => lowerEq e.op "read")).map BlkioEntry.value).sum

/-!
## Helper lemmas
-/

/-- Go `uint64` subtraction agrees with truncated subtraction when the
counters do not underflow. -/
theorem u64sub_of_le {a b : Nat} (hba : b ≤ a) (ha : a < U64) : u64sub a b = a - b := by
  have hU : U64 = 18446744073709551616 := by norm_num [U64]
  simp only [u64sub, hU] at *
  omega

/-- `logAction` returns the daemon error it was handed, whatever the
journal append did. -/
theorem logAction_fst (repoCreate : ActionLog → Except String Unit)
    (a r rid rname : String) (success : Bool) (err : Option String) :
    (logAction repoCreate a r rid rname success err).1 = err := by
  unfold logAction
  split <;> rfl

/-!
## C1
-/

/-- C1 (amended): for every stats sample whose memory limit is 0, the
memory percentage computed by `getContainerStats` — and by `checkContainer`,
which uses the identical expression — is the unguarded IEEE division result:
`NaN` when `mem_used = 0` and `+Inf` when `mem_used > 0`, never `0`; with
`mem_used > 0` the `+Inf` is observable in `checkContainer`'s output, which
classifies the container `resource_critical` against every threshold pair. -/
theorem C1_mem_limit_zero_unguarded (s : StatsResponse) (h : s.memoryLimit = 0) :
    (getContainerStats s).memoryPercent
        = (if s.memoryUsage = 0 then GoFloat.nan else GoFloat.inf)
    ∧ (getContainerStats s).memoryPercent ≠ GoFloat.finite 0
    ∧ (0 < s.memoryUsage → ∀ t₁ t₂ : ℚ, checkContainerStatus s t₁ t₂ = "resource_critical") := by
  refine ⟨?_, ?_, ?_⟩
  · by_cases hu : s.memoryUsage = 0 <;>
      simp [getContainerStats, memoryPercentGo, fdiv, fmul100, h, hu]
  · by_cases hu : s.memoryUsage = 0 <;>
      simp [getContainerStats, memoryPercentGo, fdiv, fmul100, h, hu]
  · intro hu t₁ t₂
    have hne : s.memoryUsage ≠ 0 := Nat.pos_iff_ne_zero.mp hu
    simp [checkContainerStatus, memoryPercentGo, fdiv, fmul100, fgt, h, hne]

/-- Witness for C1 at `mem_used = 512`, `mem_limit = 0`. -/
theorem C1_mem_limit_zero_unguarded_witness :
    (getContainerStats ⟨0, 0, 0, 0, [], 512, 0, [], []⟩).memoryPercent ≠ GoFloat.finite 0
    ∧ checkContainerStatus ⟨0, 0, 0, 0, [], 512, 0, [], []⟩ 100 100 = "resource_critical" := by
  obtain ⟨h1, h2, h3⟩ := C1_mem_limit_zero_unguarded ⟨0, 0, 0, 0, [], 512, 0, [], []⟩ rfl
  exact ⟨h2, h3 (by norm_num) 100 100⟩

/-- Counterexample to C1 as stated: at `mem_used = 512`, `mem_limit = 0`
the sampler's derived memory percentage is `+Inf`, not `0`. -/
theorem C1_counterexample :
    (getContainerStats ⟨0, 0, 0, 0, [], 512, 0, [], []⟩).memoryPercent = GoFloat.inf
    ∧ GoFloat.inf ≠ GoFloat.finite 0 := by
  exact ⟨rfl, by decide⟩

/-!
## C2
-/

/-- C2 (amended): when the CPU counters do not underflow (current ≥
previous, as the `uint64` subtraction otherwise wraps to a huge positive
delta), `cpu_percent = (cpuDelta/systemDelta) · cpu_count · 100` if both
deltas are strictly positive and `0` if either delta is zero; the S1 input
yields exactly `20`. -/
theorem C2_cpu_percent (s : StatsResponse)
    (hc : s.cpuTotalUsage < U64) (hs : s.systemUsage < U64)
    (hpc : s.preCpuTotalUsage ≤ s.cpuTotalUsage) (hps : s.preSystemUsage ≤ s.systemUsage) :
    (0 < s.cpuTotalUsage - s.preCpuTotalUsage → 0 < s.systemUsage - s.preSystemUsage →
      CalculateCPUPercent s
        = ((s.cpuTotalUsage - s.preCpuTotalUsage : ℕ) : ℚ)
            / ((s.systemUsage - s.preSystemUsage : ℕ) : ℚ) * (s.percpuUsage.length : ℚ) * 100)
    ∧ (s.cpuTotalUsage - s.preCpuTotalUsage = 0 ∨ s.systemUsage - s.preSystemUsage = 0 →
      CalculateCPUPercent s = 0)
    ∧ CalculateCPUPercent ⟨200, 100, 2000, 1000, [0, 0], 0, 0, [], []⟩ = 20 := by
  have e1 : u64sub s.cpuTotalUsage s.preCpuTotalUsage
      = s.cpuTotalUsage - s.preCpuTotalUsage := u64sub_of_le hpc hc
  have e2 : u64sub s.systemUsage s.preSystemUsage
      = s.systemUsage - s.preSystemUsage := u64sub_of_le hps hs
  refine ⟨?_, ?_, ?_⟩
  · intro h1 h2
    simp only [CalculateCPUPercent, e1, e2]
    rw [if_pos ⟨by exact_mod_cast h2, by exact_mod_cast h1⟩]
  · intro h
    simp only [CalculateCPUPercent, e1, e2]
    rw [if_neg]
    rcases h with h | h <;> simp [h]
  · norm_num [CalculateCPUPercent, u64sub, U64]

/-- Witness for C2 at the S1 input. -/
theorem C2_cpu_percent_witness :
    CalculateCPUPercent ⟨200, 100, 2000, 1000, [0, 0], 0, 0, [], []⟩ = 20 :=
  (C2_cpu_percent ⟨200, 100, 2000, 1000, [0, 0], 0, 0, [], []⟩
    (by norm_num [U64]) (by norm_num [U64]) (by norm_num) (by norm_num)).2.2

/-- Counterexample to C2 as stated: with `cpu_total = 100 <
cpu_total_prev = 200` the mathematical `cpuDelta` is negative, so the claim
demands `cpu_percent = 0`; the unsigned subtraction wraps instead and the
code returns a huge positive percentage. -/
theorem C2_counterexample :
    CalculateCPUPercent ⟨100, 200, 2000, 1000, [0, 0], 0, 0, [], []⟩ ≠ 0
    ∧ (100 : ℤ) - 200 ≤ 0 := by
  constructor
  · norm_num [CalculateCPUPercent, u64sub, U64]
  · norm_num

/-!
## C7
-/

/-- The derived CPU percentage is strictly positive exactly when both
wrapped deltas are nonzero and the per-cpu list is nonempty. -/
theorem calcCPU_pos_iff (s : StatsResponse) :
    0 < CalculateCPUPercent s ↔
      (0 < u64sub s.cpuTotalUsage s.preCpuTotalUsage
        ∧ 0 < u64sub s.systemUsage s.preSystemUsage ∧ 0 < s.percpuUsage.length) := by
  simp only [CalculateCPUPercent]
  by_cases hsd : 0 < u64sub s.systemUsage s.preSystemUsage
  · by_cases hcd : 0 < u64sub s.cpuTotalUsage s.preCpuTotalUsage
    · rw [if_pos ⟨by exact_mod_cast hsd, by exact_mod_cast hcd⟩]
      constructor
      · intro hpos
        refine ⟨hcd, hsd, ?_⟩
        by_contra hlen
        have h0 : s.percpuUsage.length = 0 := Nat.eq_zero_of_not_pos hlen
        rw [h0] at hpos
        norm_num at hpos
      · rintro ⟨-, -, hlen⟩
        have h1 : (0 : ℚ) < (u64sub s.cpuTotalUsage s.preCpuTotalUsage : ℕ) := by
          exact_mod_cast hcd
        have h2 : (0 : ℚ) < (u64sub s.systemUsage s.preSystemUsage : ℕ) := by
          exact_mod_cast hsd
        have h3 : (0 : ℚ) < (s.percpuUsage.length : ℚ) := by exact_mod_cast hlen
        have := mul_pos (mul_pos (div_pos h1 h2) h3) (by norm_num : (0 : ℚ) < 100)
        linarith
    · rw [if_neg (fun hmm => hcd (by exact_mod_cast hmm.2))]
      simp [hcd]
  · rw [if_neg (fun hmm => hsd (by exact_mod_cast hmm.1))]
    simp [hsd]

/-- The memory percentage passes the IEEE comparison `> 0` exactly when
`mem_used > 0` (with a zero limit the value is `+Inf`, which compares
greater; with used `= 0` it is `0` or `NaN`, which do not). -/
theorem memPercent_fgt_zero_iff (u l : Nat) :
    fgt (memoryPercentGo u l) 0 = true ↔ 0 < u := by
  by_cases hl : l = 0
  · by_cases hu : u = 0 <;>
      simp [memoryPercentGo, fdiv, fmul100, fgt, hl, hu, Nat.pos_of_ne_zero]
  · simp only [memoryPercentGo, fdiv, fmul100, fgt, if_neg hl, decide_eq_true_eq]
    constructor
    · intro h
      by_contra hu
      have h0 : u = 0 := by omega
      rw [h0] at h
      norm_num at h
    · intro h
      have hl' : (0 : ℚ) < (l : ℚ) := by exact_mod_cast Nat.pos_of_ne_zero hl
      have hu' : (0 : ℚ) < (u : ℚ) := by exact_mod_cast h
      have := mul_pos (div_pos hu' hl') (by norm_num : (0 : ℚ) < 100)
      linarith

/-- C7 (amended): with both thresholds 0 the health probe classifies a
successfully sampled container `resource_critical` exactly when its derived
cpu percentage or memory percentage exceeds zero — i.e. when both wrapped
CPU deltas are nonzero and the cpu count is positive, or the memory usage
is nonzero.  A sample with cpu% = 0 and mem% = 0 is classified `healthy`,
not `resource_critical`. -/
theorem C7_zero_thresholds (s : StatsResponse) :
    checkContainerStatus s 0 0 = "resource_critical" ↔
      ((0 < u64sub s.cpuTotalUsage s.preCpuTotalUsage
          ∧ 0 < u64sub s.systemUsage s.preSystemUsage ∧ 0 < s.percpuUsage.length)
        ∨ 0 < s.memoryUsage) := by
  simp only [checkContainerStatus]
  split_ifs with h
  · constructor
    · intro _
      rcases h with h | h
      · exact Or.inl ((calcCPU_pos_iff s).mp h)
      · exact Or.inr ((memPercent_fgt_zero_iff _ _).mp h)
    · intro _
      rfl
  · constructor
    · intro habs
      exact absurd habs (by decide)
    · intro hr
      exfalso
      apply h
      rcases hr with h' | h'
      · exact Or.inl ((calcCPU_pos_iff s).mpr h')
      · exact Or.inr ((memPercent_fgt_zero_iff _ _).mpr h')

/-- Counterexample to C7 as stated: a running container sampled with all
CPU counters equal (cpu% = 0) and zero memory usage against a positive
limit (mem% = 0) is classified `healthy` even though both thresholds are
0 — not every successfully sampled container is `resource_critical`. -/
theorem C7_counterexample :
    checkContainerStatus ⟨0, 0, 0, 0, [], 0, 1024, [], []⟩ 0 0 = "healthy"
    ∧ "healthy" ≠ "resource_critical" := by
  constructor
  · norm_num [checkContainerStatus, CalculateCPUPercent, memoryPercentGo, fdiv, fmul100,
      fgt, u64sub, U64]
  · decide

/-!
## C9
-/

/-- The conditional `uint64` accumulation of the block-io loops equals the
wrapped sum over the filtered entries. -/
theorem foldl_u64add_filter (p : BlkioEntry → Prop) [DecidablePred p] (l : List BlkioEntry) :
    ∀ acc : Nat, acc < U64 →
      l.foldl (fun total e => if p e then u64add total e.value else total) acc
        = (acc + ((l.filter (fun e => decide (p e))).map BlkioEntry.value).sum) % U64 := by
  induction l with
  | nil =>
    intro acc h
    simpa using Nat.mod_eq_of_lt h |>.symm
  | cons a l ih =>
    intro acc h
    by_cases hp : p a
    · have hstep : u64add acc a.value < U64 := Nat.mod_lt _ (by norm_num [U64])
      rw [List.foldl_cons, if_pos hp, ih _ hstep]
      have hfil : List.filter (fun e => decide (p e)) (a :: l)
          = a :: List.filter (fun e => decide (p e)) l := by
        simp [hp]
      rw [hfil, List.map_cons, List.sum_cons]
      simp only [u64add, Nat.mod_add_mod]
      rw [Nat.add_assoc]
    · have hfil : List.filter (fun e => decide (p e)) (a :: l)
          = List.filter (fun e => decide (p e)) l := by
        simp [hp]
      rw [List.foldl_cons, if_neg hp, hfil]
      exact ih acc h

/-- C9 (amended): the derived block-read total is the wrapped (mod `2^64`)
sum of the values of block-io entries whose `op` is exactly `"Read"` or
`"read"` (title case or lower case only — other casings, e.g. `"READ"`,
are excluded), and the block-write total likewise for exactly `"Write"` or
`"write"`. -/
theorem C9_block_io_sums (s : StatsResponse) :
    GetBlockRead s
        = (((s.blkioEntries.filter (fun e => e.op = "Read" ∨ e.op = "read")).map
            BlkioEntry.value).sum) % U64
    ∧ GetBlockWrite s
        = (((s.blkioEntries.filter (fun e => e.op = "Write" ∨ e.op = "write")).map
            BlkioEntry.value).sum) % U64 := by
  constructor
  · have := foldl_u64add_filter (fun e => e.op = "Read" ∨ e.op = "read") s.blkioEntries 0
      (by norm_num [U64])
    simpa [GetBlockRead] using this
  · have := foldl_u64add_filter (fun e => e.op = "Write" ∨ e.op = "write") s.blkioEntries 0
      (by norm_num [U64])
    simpa [GetBlockWrite] using this

/-- Counterexample to C9 as stated: an entry with op `"READ"` matches
`"read"` case-insensitively (the spec-side reading sums it to 5) but the
code's exact comparison contributes nothing. -/
theorem C9_counterexample :
    GetBlockRead ⟨0, 0, 0, 0, [], 0, 0, [], [⟨"READ", 5⟩]⟩ = 0
    ∧ specBlockReadCI ⟨0, 0, 0, 0, [], 0, 0, [], [⟨"READ", 5⟩]⟩ = 5
    ∧ (0 : Nat) ≠ 5 := by
  refine ⟨by decide, by decide, by decide⟩

/-!
## C3 / C4: demultiplexer lemmas
-/

/-- Running the frame loop on a well-formed frame sequence followed by any
tail consumes the frames, emits their events, and then behaves as the loop
does on the tail alone. -/
theorem demuxLoop_append (fs : List LogFrame) (hwf : wfFrames fs) :
    ∀ t : List Nat,
      demuxLoop (encodeFrames fs ++ t)
        = match demuxLoop t with
          | Except.ok evs => Except.ok (eventsOf fs ++ evs)
          | Except.error e => Except.error e := by
  induction fs with
  | nil =>
    intro t
    simp only [encodeFrames, List.nil_append, eventsOf]
    cases demuxLoop t <;> simp
  | cons f fs ih =>
    intro t
    have hlen : f.payload.length < 2 ^ 32 := hwf f (List.mem_cons_self f fs)
    have hwf2 : wfFrames fs := fun g hg => hwf g (List.mem_cons_of_mem f hg)
    have hdec : f.payload.length / 2 ^ 24 % 256 * 2 ^ 24 + f.payload.length / 2 ^ 16 % 256 * 2 ^ 16
        + f.payload.length / 2 ^ 8 % 256 * 2 ^ 8 + f.payload.length % 256
        = f.payload.length := by
      omega
    have hshape : encodeFrames (f :: fs) ++ t
        = f.stream :: 0 :: 0 :: 0 :: f.payload.length / 2 ^ 24 % 256
            :: f.payload.length / 2 ^ 16 % 256 :: f.payload.length / 2 ^ 8 % 256
            :: f.payload.length % 256 :: (f.payload ++ (encodeFrames fs ++ t)) := by
      simp [encodeFrames, encodeFrame, encodeBE32]
    rw [hshape, demuxLoop, hdec]
    by_cases hp : f.payload = []
    · rw [if_pos (by simp [hp])]
      simp only [hp, List.nil_append]
      rw [ih hwf2 t]
      simp [eventsOf, hp]
    · have hne : f.payload.length ≠ 0 := by simpa using hp
      rw [if_neg hne]
      rw [if_neg (by simp [List.isEmpty_iff, hp])]
      rw [if_neg (by simp only [List.length_append]; omega)]
      rw [List.drop_left' rfl, List.take_left' rfl, ih hwf2 t]
      cases demuxLoop t <;> simp [eventsOf, hp]

/-- The concatenated demultiplexer output is exactly the concatenation of
the frames' payloads: header bytes never reach the output, and skipped
zero-length frames contribute nothing. -/
theorem demuxOutput_eventsOf (fs : List LogFrame) :
    demuxOutput (eventsOf fs) = (fs.map LogFrame.payload).foldr (fun a b => a ++ b) [] := by
  induction fs with
  | nil => rfl
  | cons f fs ih =>
    by_cases hp : f.payload = [] <;> simp [eventsOf, demuxOutput, hp, ih] <;>
      simp [demuxOutput] at ih <;> simp [ih, hp]

/-- Total bytes emitted = sum of the payload lengths of the frames. -/
theorem demuxOutput_length (fs : List LogFrame) :
    (demuxOutput (eventsOf fs)).length = (fs.map (fun f => f.payload.length)).sum := by
  induction fs with
  | nil => rfl
  | cons f fs ih =>
    by_cases hp : f.payload = [] <;> simp [eventsOf, demuxOutput, hp] <;>
      simp [demuxOutput] at ih <;> simp [ih, hp]

/-- A stream ending inside the 8-byte header (1-7 bytes available) makes
the loop propagate the header read error. -/
theorem demuxLoop_short_header (t : List Nat) (h1 : 0 < t.length) (h2 : t.length < 8) :
    demuxLoop t = Except.error "failed to read log header" := by
  rcases t with _ | ⟨a, _ | ⟨b, _ | ⟨c, _ | ⟨d, _ | ⟨e, _ | ⟨f, _ | ⟨g, _ | ⟨h8, r⟩⟩⟩⟩⟩⟩⟩⟩
  · simp at h1
  · simp [demuxLoop]
  · simp [demuxLoop]
  · simp [demuxLoop]
  · simp [demuxLoop]
  · simp [demuxLoop]
  · simp [demuxLoop]
  · simp [demuxLoop]
  · simp at h2
    omega

/-- A stream ending inside a declared payload (at least one byte present
but fewer than the declared length) makes the loop propagate the payload
read error. -/
theorem demuxLoop_payload_short (st n : Nat) (p : List Nat)
    (h1 : 0 < p.length) (h2 : p.length < n) (h3 : n < 2 ^ 32) :
    demuxLoop (st :: 0 :: 0 :: 0 :: (encodeBE32 n ++ p))
      = Except.error "failed to read log payload" := by
  have hdec : n / 2 ^ 24 % 256 * 2 ^ 24 + n / 2 ^ 16 % 256 * 2 ^ 16
      + n / 2 ^ 8 % 256 * 2 ^ 8 + n % 256 = n := by omega
  simp only [encodeBE32, List.cons_append, List.nil_append]
  rw [demuxLoop, hdec]
  rw [if_neg (by omega)]
  rw [if_neg (by simp [List.isEmpty_iff]; exact List.length_pos.mp h1)]
  rw [if_pos h2]

/-- A stream ending immediately after a complete header that declares a
positive payload length terminates the loop normally: `io.ReadFull` reads
zero bytes, returns clean `io.EOF`, and the loop breaks without error. -/
theorem demuxLoop_header_only (st n : Nat) (h1 : 0 < n) (h3 : n < 2 ^ 32) :
    demuxLoop (st :: 0 :: 0 :: 0 :: encodeBE32 n) = Except.ok [] := by
  have hdec : n / 2 ^ 24 % 256 * 2 ^ 24 + n / 2 ^ 16 % 256 * 2 ^ 16
      + n / 2 ^ 8 % 256 * 2 ^ 8 + n % 256 = n := by omega
  simp only [encodeBE32]
  rw [demuxLoop, hdec]
  rw [if_neg (by omega)]
  simp

/-- C3: on every well-formed multiplexed input the demultiplexer consumes
each 8-byte header, decodes the big-endian length, emits exactly the
payload bytes of each frame in order (skipping zero-length frames), emits
no header bytes, and the total emitted equals the sum of the payload
lengths; the S3 byte string yields the events `(stdout, "hello")` then
`(stderr, "err")`. -/
theorem C3_demux (fs : List LogFrame) (hwf : wfFrames fs) :
    demuxLoop (encodeFrames fs) = Except.ok (eventsOf fs)
    ∧ demuxOutput (eventsOf fs) = (fs.map LogFrame.payload).foldr (fun a b => a ++ b) []
    ∧ (demuxOutput (eventsOf fs)).length = (fs.map (fun f => f.payload.length)).sum
    ∧ demuxLoop [1, 0, 0, 0, 0, 0, 0, 5, 104, 101, 108, 108, 111,
        2, 0, 0, 0, 0, 0, 0, 3, 101, 114, 114]
        = Except.ok [(1, [104, 101, 108, 108, 111]), (2, [101, 114, 114])] := by
  refine ⟨?_, demuxOutput_eventsOf fs, demuxOutput_length fs, ?_⟩
  · have h := demuxLoop_append fs hwf []
    have h0 : demuxLoop ([] : List Nat) = Except.ok [] := by simp [demuxLoop]
    rw [List.append_nil] at h
    rw [h, h0]
    simp
  · simp [demuxLoop]

/-- Witness for C3 at the S3 frame list. -/
theorem C3_demux_witness :
    demuxLoop (encodeFrames [⟨1, [104, 101, 108, 108, 111]⟩, ⟨2, [101, 114, 114]⟩])
      = Except.ok (eventsOf [⟨1, [104, 101, 108, 108, 111]⟩, ⟨2, [101, 114, 114]⟩]) :=
  (C3_demux [⟨1, [104, 101, 108, 108, 111]⟩, ⟨2, [101, 114, 114]⟩] (by decide)).1

/-- C4 (amended): a short read strictly inside the 8-byte header (1-7
bytes) or strictly inside a declared payload (1 to N-1 of N bytes)
propagates an incomplete-frame error; the stream terminates normally on
clean EOF at a frame boundary — and also when EOF falls immediately after
a complete header declaring N > 0 with zero payload bytes following, since
`io.ReadFull` then reports clean `io.EOF` and the loop breaks without
error. -/
theorem C4_incomplete_frames (fs : List LogFrame) (hwf : wfFrames fs) :
    demuxLoop (encodeFrames fs) = Except.ok (eventsOf fs)
    ∧ (∀ t : List Nat, 0 < t.length → t.length < 8 →
        demuxLoop (encodeFrames fs ++ t) = Except.error "failed to read log header")
    ∧ (∀ st n : Nat, ∀ p : List Nat, 0 < p.length → p.length < n → n < 2 ^ 32 →
        demuxLoop (encodeFrames fs ++ (st :: 0 :: 0 :: 0 :: (encodeBE32 n ++ p)))
          = Except.error "failed to read log payload")
    ∧ (∀ st n : Nat, 0 < n → n < 2 ^ 32 →
        demuxLoop (encodeFrames fs ++ (st :: 0 :: 0 :: 0 :: encodeBE32 n))
          = Except.ok (eventsOf fs)) := by
  refine ⟨?_, ?_, ?_, ?_⟩
  · have h := demuxLoop_append fs hwf []
    have h0 : demuxLoop ([] : List Nat) = Except.ok [] := by simp [demuxLoop]
    rw [List.append_nil] at h
    rw [h, h0]
    simp
  · intro t h1 h2
    rw [demuxLoop_append fs hwf t, demuxLoop_short_header t h1 h2]
  · intro st n p h1 h2 h3
    rw [demuxLoop_append fs hwf _, demuxLoop_payload_short st n p h1 h2 h3]
  · intro st n h1 h3
    rw [demuxLoop_append fs hwf _, demuxLoop_header_only st n h1 h3]
    simp

/-- Witness for C4: one frame followed by a 1-byte header fragment errors;
one frame followed by a bare header declaring 5 payload bytes ends
normally. -/
theorem C4_incomplete_frames_witness :
    demuxLoop (encodeFrames [⟨1, [104]⟩] ++ [2])
        = Except.error "failed to read log header"
    ∧ demuxLoop (encodeFrames [⟨1, [104]⟩] ++ (2 :: 0 :: 0 :: 0 :: encodeBE32 5))
        = Except.ok (eventsOf [⟨1, [104]⟩]) := by
  obtain ⟨-, h2, -, h4⟩ := C4_incomplete_frames [⟨1, [104]⟩] (by decide)
  exact ⟨h2 [2] (by norm_num) (by norm_num), h4 2 5 (by norm_num) (by norm_num)⟩

/-- Counterexample to C4 as stated: the input consisting of exactly one
8-byte header declaring a 5-byte payload with zero payload bytes following
terminates the demultiplexer normally (`io.ReadFull` returns clean EOF),
whereas the claim demands an incomplete-frame error for every stream that
ends inside a frame. -/
theorem C4_counterexample :
    demuxLoop [1, 0, 0, 0, 0, 0, 0, 5] = Except.ok []
    ∧ (Except.ok ([] : List (Nat × List Nat))
        ≠ (Except.error "failed to read log payload" : Except String (List (Nat × List Nat)))) := by
  constructor
  · simp [demuxLoop]
  · simp

/-!
## C5
-/

/-- `refreshFinalize` touches only the derived memory percentage. -/
theorem refreshFinalize_count (s : DashboardSummary) :
    (refreshFinalize s).containerCount = s.containerCount := by
  unfold refreshFinalize
  split <;> rfl

/-- `refreshFinalize` leaves the CPU total unchanged. -/
theorem refreshFinalize_cpu (s : DashboardSummary) :
    (refreshFinalize s).totalCPUPercent = s.totalCPUPercent := by
  unfold refreshFinalize
  split <;> rfl

/-- Inserting a fresh key into the association-list map appends it. -/
theorem mapSet_fresh (m : List (String × ContainerStats)) (k : String) (v : ContainerStats)
    (h : ∀ p ∈ m, p.1 ≠ k) : mapSet m k v = m ++ [(k, v)] := by
  unfold mapSet
  rw [if_neg]
  simp only [List.any_eq_true, decide_eq_true_eq, not_exists, not_and]
  exact fun p hp => h p hp

/-- Invariant of the collection loop: starting from an accumulator whose
summary already counts and sums exactly its map entries, and whose keys are
disjoint from the incoming (pairwise distinct) result ids, the loop
preserves the count and CPU-sum identities, and the final map's keys are
the old keys followed by exactly the successful result ids. -/
theorem refreshStep_fold (results : List (String × Option ContainerStats)) :
    ∀ acc : List (String × ContainerStats) × DashboardSummary,
      (∀ p ∈ acc.1, ∀ r ∈ results, p.1 ≠ r.1) →
      (results.map Prod.fst).Nodup →
      acc.2.containerCount = acc.1.length →
      acc.2.totalCPUPercent = (acc.1.map (fun p => p.2.cpuPercent)).sum →
      (results.foldl refreshStep acc).1.map Prod.fst
          = acc.1.map Prod.fst ++ (results.filter (fun r => r.2.isSome)).map Prod.fst
      ∧ (results.foldl refreshStep acc).2.containerCount
          = (results.foldl refreshStep acc).1.length
      ∧ (results.foldl refreshStep acc).2.totalCPUPercent
          = ((results.foldl refreshStep acc).1.map (fun p => p.2.cpuPercent)).sum := by
  induction results with
  | nil =>
    intro acc _ _ hcount hsum
    simpa using ⟨hcount, hsum⟩
  | cons r rest ih =>
    intro acc hdisj hnodup hcount hsum
    obtain ⟨id, o⟩ := r
    cases o with
    | none =>
      have hstep : refreshStep acc (id, none) = acc := rfl
      simp only [List.foldl_cons, hstep]
      have h := ih acc
        (fun p hp r' hr' => hdisj p hp r' (List.mem_cons_of_mem _ hr'))
        (by simpa using hnodup.of_cons) hcount hsum
      simpa [List.filter_cons] using h
    | some st =>
      have hfresh : ∀ p ∈ acc.1, p.1 ≠ id :=
        fun p hp => hdisj p hp (id, some st) (List.mem_cons_self _ _)
      have hid_not : id ∉ rest.map Prod.fst := by
        have := hnodup
        simp only [List.map_cons, List.nodup_cons] at this
        exact this.1
      have hstep : refreshStep acc (id, some st)
          = (acc.1 ++ [(id, st)],
              { totalCPUPercent := acc.2.totalCPUPercent + st.cpuPercent
                totalMemoryUsage := u64add acc.2.totalMemoryUsage st.memoryUsage
                totalMemoryLimit := u64add acc.2.totalMemoryLimit st.memoryLimit
                totalMemoryPercent := acc.2.totalMemoryPercent
                totalNetworkRx := u64add acc.2.totalNetworkRx st.networkRx
                totalNetworkTx := u64add acc.2.totalNetworkTx st.networkTx
                containerCount := acc.2.containerCount + 1 }) := by
        simp only [refreshStep, mapSet_fresh acc.1 id st hfresh]
      have hdisj' : ∀ p ∈ acc.1 ++ [(id, st)], ∀ r' ∈ rest, p.1 ≠ r'.1 := by
        intro p hp r' hr'
        rcases List.mem_append.mp hp with hp' | hp'
        · exact hdisj p hp' r' (List.mem_cons_of_mem _ hr')
        · have hpid : p = (id, st) := by simpa using hp'
          subst hpid
          exact fun hc => hid_not (by
            rw [show id = r'.1 from hc]
            exact List.mem_map_of_mem Prod.fst hr')
      have h := ih (acc.1 ++ [(id, st)],
          { totalCPUPercent := acc.2.totalCPUPercent + st.cpuPercent
            totalMemoryUsage := u64add acc.2.totalMemoryUsage st.memoryUsage
            totalMemoryLimit := u64add acc.2.totalMemoryLimit st.memoryLimit
            totalMemoryPercent := acc.2.totalMemoryPercent
            totalNetworkRx := u64add acc.2.totalNetworkRx st.networkRx
            totalNetworkTx := u64add acc.2.totalNetworkTx st.networkTx
            containerCount := acc.2.containerCount + 1 })
        hdisj' (by simpa using hnodup.of_cons)
        (by simpa using hcount)
        (by simp [hsum])
      obtain ⟨hkeys, hcnt, hcpu⟩ := h
      refine ⟨?_, ?_, ?_⟩
      · simp only [List.foldl_cons, hstep]
        rw [hkeys]
        simp [List.filter_cons]
      · simp only [List.foldl_cons, hstep]
        exact hcnt
      · simp only [List.foldl_cons, hstep]
        exact hcpu

/-- C5: every snapshot the refresh publishes is internally consistent —
`container_count` equals the number of per-container entries, the summary
CPU total is exactly the sum of the entries' `cpu_percent`, and the entry
keys are exactly the ids whose sampler succeeded (errored samplers
contribute to neither), provided the daemon-listed container ids are
pairwise distinct. -/
theorem C5_snapshot_consistent (results : List (String × Option ContainerStats))
    (hnodup : (results.map Prod.fst).Nodup) :
    (refreshSnapshot results).2.containerCount = (refreshSnapshot results).1.length
    ∧ (refreshSnapshot results).2.totalCPUPercent
        = ((refreshSnapshot results).1.map (fun p => p.2.cpuPercent)).sum
    ∧ (refreshSnapshot results).1.map Prod.fst
        = (results.filter (fun r => r.2.isSome)).map Prod.fst := by
  obtain ⟨hkeys, hcnt, hcpu⟩ :=
    refreshStep_fold results ([], emptySummary) (by simp) hnodup rfl rfl
  have h1 : (refreshSnapshot results).1 = (refreshCollect results).1 := rfl
  have h2 : (refreshSnapshot results).2 = refreshFinalize (refreshCollect results).2 := rfl
  refine ⟨?_, ?_, ?_⟩
  · rw [h1, h2, refreshFinalize_count]
    exact hcnt
  · rw [h1, h2, refreshFinalize_cpu]
    exact hcpu
  · rw [h1]
    simpa using hkeys

/-- Witness for C5: a three-result tick where the sampler for `"b"` errored
publishes a snapshot with entries exactly `{a, c}`, count 2, and CPU total
`5 + 7`. -/
theorem C5_snapshot_consistent_witness :
    (refreshSnapshot [("a", some ⟨5, 10, 100, GoFloat.finite 10, 0, 0, 0, 0⟩),
        ("b", none), ("c", some ⟨7, 20, 100, GoFloat.finite 20, 0, 0, 0, 0⟩)]).2.containerCount
      = (refreshSnapshot [("a", some ⟨5, 10, 100, GoFloat.finite 10, 0, 0, 0, 0⟩),
        ("b", none), ("c", some ⟨7, 20, 100, GoFloat.finite 20, 0, 0, 0, 0⟩)]).1.length
    ∧ (refreshSnapshot [("a", some ⟨5, 10, 100, GoFloat.finite 10, 0, 0, 0, 0⟩),
        ("b", none), ("c", some ⟨7, 20, 100, GoFloat.finite 20, 0, 0, 0, 0⟩)]).2.totalCPUPercent
      = ((refreshSnapshot [("a", some ⟨5, 10, 100, GoFloat.finite 10, 0, 0, 0, 0⟩),
        ("b", none), ("c", some ⟨7, 20, 100, GoFloat.finite 20, 0, 0, 0, 0⟩)]).1.map
          (fun p => p.2.cpuPercent)).sum
    ∧ (refreshSnapshot [("a", some ⟨5, 10, 100, GoFloat.finite 10, 0, 0, 0, 0⟩),
        ("b", none), ("c", some ⟨7, 20, 100, GoFloat.finite 20, 0, 0, 0, 0⟩)]).1.map Prod.fst
      = ["a", "c"] := by
  obtain ⟨h1, h2, h3⟩ := C5_snapshot_consistent
    [("a", some ⟨5, 10, 100, GoFloat.finite 10, 0, 0, 0, 0⟩),
      ("b", none), ("c", some ⟨7, 20, 100, GoFloat.finite 20, 0, 0, 0, 0⟩)]
    (by decide)
  exact ⟨h1, h2, by rw [h3]; rfl⟩

/-!
## C8
-/

/-- The handler's two counters partition any result list. -/
theorem counts_partition (rs : List BulkOperationResult) :
    ∀ a b : Nat,
      rs.foldl (fun count r => if r.success then count + 1 else count) a
        + rs.foldl (fun count r => if r.success then count else count + 1) b
        = a + b + rs.length := by
  induction rs with
  | nil =>
    intro a b
    simp
  | cons r rs ih =>
    intro a b
    by_cases h : r.success
    · simp only [List.foldl_cons, if_pos h]
      rw [ih (a + 1) b]
      simp [List.length_cons]
      omega
    · simp only [List.foldl_cons, if_neg h]
      rw [ih a (b + 1)]
      simp [List.length_cons]
      omega

/-- Each bulk result keeps the id it was produced from. -/
theorem bulkResultFor_id (inspect : String → Except String String)
    (runOp : String → Option String) (containerID : String) :
    (bulkResultFor inspect runOp containerID).containerID = containerID := by
  unfold bulkResultFor
  split <;> rfl

/-- Shared shape of all three bulk loops: over `ids.map (bulkResultFor
inspect runOp)` the two counters partition the inputs, the results carry
the input ids once each in input order, and each entry records success
with an empty error string or failure with exactly `runOp`'s error. -/
theorem bulk_map_spec (inspect : String → Except String String)
    (runOp : String → Option String) (containerIDs : List String) :
    countSuccessful (containerIDs.map (bulkResultFor inspect runOp))
        + countFailed (containerIDs.map (bulkResultFor inspect runOp))
        = containerIDs.length
    ∧ (containerIDs.map (bulkResultFor inspect runOp)).map
        BulkOperationResult.containerID = containerIDs
    ∧ (∀ r ∈ containerIDs.map (bulkResultFor inspect runOp),
        (r.success = true ∧ r.error = "")
        ∨ (r.success = false ∧ runOp r.containerID = some r.error)) := by
  refine ⟨?_, ?_, ?_⟩
  · have h := counts_partition (containerIDs.map (bulkResultFor inspect runOp)) 0 0
    simp only [countSuccessful, countFailed]
    rw [h]
    simp [List.length_map]
  · rw [List.map_map]
    have hcomp : (BulkOperationResult.containerID ∘ bulkResultFor inspect runOp) = id := by
      funext x
      exact bulkResultFor_id _ _ x
    rw [hcomp, List.map_id]
  · intro r hr
    obtain ⟨cid, _hcid, rfl⟩ := List.mem_map.mp hr
    cases h : runOp cid with
    | none =>
      left
      simp [bulkResultFor, h]
    | some e =>
      right
      refine ⟨by simp [bulkResultFor, h], ?_⟩
      rw [bulkResultFor_id]
      have herr : (bulkResultFor inspect runOp cid).error = e := by
        simp [bulkResultFor, h]
      rw [herr, h]

/-- C8: for every bulk operation — stop, start and remove — over
`container_ids`, `success + failed = total = |container_ids|`; the results
carry the input ids once each, in input order; a failed entry records
exactly the single-container operation's error string and a successful one
records the empty string; on the S4 input `[a, b, c]` with the gateway
failing `b` with `"conflict"` the bulk-stop response is `total 3, success
2, failed 1` with results in order `a, b, c`. -/
theorem C8_bulk_partition (inspect : String → Except String String)
    (containerStart containerStop : String → Except String Unit)
    (containerRemove : String → Bool → Except String Unit)
    (repoCreate : ActionLog → Except String Unit) (containerIDs : List String)
    (force : Bool) :
    countSuccessful (BulkStopContainers inspect containerStop repoCreate containerIDs)
        + countFailed (BulkStopContainers inspect containerStop repoCreate containerIDs)
        = containerIDs.length
    ∧ (BulkStopContainers inspect containerStop repoCreate containerIDs).map
        BulkOperationResult.containerID = containerIDs
    ∧ (∀ r ∈ BulkStopContainers inspect containerStop repoCreate containerIDs,
        (r.success = true ∧ r.error = "")
        ∨ (r.success = false
            ∧ StopContainer inspect containerStop repoCreate r.containerID = some r.error))
    ∧ countSuccessful (BulkStartContainers inspect containerStart repoCreate containerIDs)
        + countFailed (BulkStartContainers inspect containerStart repoCreate containerIDs)
        = containerIDs.length
    ∧ (BulkStartContainers inspect containerStart repoCreate containerIDs).map
        BulkOperationResult.containerID = containerIDs
    ∧ (∀ r ∈ BulkStartContainers inspect containerStart repoCreate containerIDs,
        (r.success = true ∧ r.error = "")
        ∨ (r.success = false
            ∧ StartContainer inspect containerStart repoCreate r.containerID = some r.error))
    ∧ countSuccessful (BulkRemoveContainers inspect containerRemove repoCreate containerIDs force)
        + countFailed (BulkRemoveContainers inspect containerRemove repoCreate containerIDs force)
        = containerIDs.length
    ∧ (BulkRemoveContainers inspect containerRemove repoCreate containerIDs force).map
        BulkOperationResult.containerID = containerIDs
    ∧ (∀ r ∈ BulkRemoveContainers inspect containerRemove repoCreate containerIDs force,
        (r.success = true ∧ r.error = "")
        ∨ (r.success = false
            ∧ RemoveContainer inspect containerRemove repoCreate r.containerID force
                = some r.error))
    ∧ BulkStopContainers (fun _ => Except.ok "")
        (fun id => if id = "b" then Except.error "conflict" else Except.ok ())
        (fun _ => Except.ok ()) ["a", "b", "c"]
        = [⟨"a", "", true, ""⟩, ⟨"b", "", false, "conflict"⟩, ⟨"c", "", true, ""⟩]
    ∧ countSuccessful [⟨"a", "", true, ""⟩, ⟨"b", "", false, "conflict"⟩, ⟨"c", "", true, ""⟩]
        = 2
    ∧ countFailed [⟨"a", "", true, ""⟩, ⟨"b", "", false, "conflict"⟩, ⟨"c", "", true, ""⟩]
        = 1 := by
  obtain ⟨hs1, hs2, hs3⟩ :=
    bulk_map_spec inspect (StopContainer inspect containerStop repoCreate) containerIDs
  obtain ⟨ha1, ha2, ha3⟩ :=
    bulk_map_spec inspect (StartContainer inspect containerStart repoCreate) containerIDs
  obtain ⟨hr1, hr2, hr3⟩ :=
    bulk_map_spec inspect
      (fun id => RemoveContainer inspect containerRemove repoCreate id force) containerIDs
  exact ⟨hs1, hs2, hs3, ha1, ha2, ha3, hr1, hr2, hr3, rfl, rfl, rfl⟩

/-!
## C10
-/

/-- C10: each mutating operation returns exactly the daemon call's error —
the inspect error when inspect fails, otherwise the mutating call's error,
`none` on success — and the returned value does not depend on whether the
journal append (`repoCreate`) succeeds. -/
theorem C10_journal_failure_invisible (inspect : String → Except String String)
    (gwStart gwStop gwRestart : String → Except String Unit)
    (gwRemove : String → Bool → Except String Unit)
    (repo1 repo2 : ActionLog → Except String Unit) (containerID : String) (force : Bool) :
    StartContainer inspect gwStart repo1 containerID
        = StartContainer inspect gwStart repo2 containerID
    ∧ StopContainer inspect gwStop repo1 containerID
        = StopContainer inspect gwStop repo2 containerID
    ∧ RestartContainer inspect gwRestart repo1 containerID
        = RestartContainer inspect gwRestart repo2 containerID
    ∧ RemoveContainer inspect gwRemove repo1 containerID force
        = RemoveContainer inspect gwRemove repo2 containerID force
    ∧ StartContainer inspect gwStart repo1 containerID
        = (match inspect containerID with
           | Except.error e => some e
           | Except.ok _ =>
             match gwStart containerID with
             | Except.error e => some e
             | Except.ok _ => none)
    ∧ StopContainer inspect gwStop repo1 containerID
        = (match inspect containerID with
           | Except.error e => some e
           | Except.ok _ =>
             match gwStop containerID with
             | Except.error e => some e
             | Except.ok _ => none)
    ∧ RestartContainer inspect gwRestart repo1 containerID
        = (match inspect containerID with
           | Except.error e => some e
           | Except.ok _ =>
             match gwRestart containerID with
             | Except.error e => some e
             | Except.ok _ => none)
    ∧ RemoveContainer inspect gwRemove repo1 containerID force
        = (match inspect containerID with
           | Except.error e => some e
           | Except.ok _ =>
             match gwRemove containerID force with
             | Except.error e => some e
             | Except.ok _ => none) := by
  have hstart : ∀ repo : ActionLog → Except String Unit,
      StartContainer inspect gwStart repo containerID
        = (match inspect containerID with
           | Except.error e => some e
           | Except.ok _ =>
             match gwStart containerID with
             | Except.error e => some e
             | Except.ok _ => none) := by
    intro repo
    unfold StartContainer
    cases inspect containerID with
    | error e => simp [logAction_fst]
    | ok name => cases gwStart containerID <;> simp [logAction_fst]
  have hstop : ∀ repo : ActionLog → Except String Unit,
      StopContainer inspect gwStop repo containerID
        = (match inspect containerID with
           | Except.error e => some e
           | Except.ok _ =>
             match gwStop containerID with
             | Except.error e => some e
             | Except.ok _ => none) := by
    intro repo
    unfold StopContainer
    cases inspect containerID with
    | error e => simp [logAction_fst]
    | ok name => cases gwStop containerID <;> simp [logAction_fst]
  have hrestart : ∀ repo : ActionLog → Except String Unit,
      RestartContainer inspect gwRestart repo containerID
        = (match inspect containerID with
           | Except.error e => some e
           | Except.ok _ =>
             match gwRestart containerID with
             | Except.error e => some e
             | Except.ok _ => none) := by
    intro repo
    unfold RestartContainer
    cases inspect containerID with
    | error e => simp [logAction_fst]
    | ok name => cases gwRestart containerID <;> simp [logAction_fst]
  have hremove : ∀ repo : ActionLog → Except String Unit,
      RemoveContainer inspect gwRemove repo containerID force
        = (match inspect containerID with
           | Except.error e => some e
           | Except.ok _ =>
             match gwRemove containerID force with
             | Except.error e => some e
             | Except.ok _ => none) := by
    intro repo
    unfold RemoveContainer
    cases inspect containerID with
    | error e => simp [logAction_fst]
    | ok name => cases gwRemove containerID force <;> simp [logAction_fst]
  exact ⟨(hstart repo1).trans (hstart repo2).symm, (hstop repo1).trans (hstop repo2).symm,
    (hrestart repo1).trans (hrestart repo2).symm, (hremove repo1).trans (hremove repo2).symm,
    hstart repo1, hstop repo1, hrestart repo1, hremove repo1⟩

/-!
## C6
-/

/-- C6 evaluated at the failing request: the options driving the archive's
demultiplexer run are the constants `tail = "all"`, `timestamps = true`
(non-follow), identical for any requested `tail`/`timestamps` values, since
`DownloadLogs` never parses those query parameters and `CreateLogArchive`
hardcodes them; the archive entry is named from the inspected display name
(leading slash stripped) and the `yyyyMMdd-HHmmss` timestamp. -/
theorem C6_archive_ignores_query :
    downloadLogsArchiveOpts "10" false = downloadLogsArchiveOpts "500" true
    ∧ (downloadLogsArchiveOpts "10" false).tail = "all"
    ∧ (downloadLogsArchiveOpts "10" false).timestamps = true
    ∧ (downloadLogsArchiveOpts "10" false).follow = false
    ∧ archiveEntryName "/my-app" "20251011-153000" = "my-app_20251011-153000.log" := by
  refine ⟨rfl, rfl, rfl, rfl, ?_⟩
  decide

/-- Witness for C8 at the S4 gateway: the bulk-stop totals partition to 3
and the failed entry for `"b"` carries exactly the single-container stop
error string; the start and remove partitions also total 3 on the same
input ids. -/
theorem C8_bulk_partition_witness :
    countSuccessful (BulkStopContainers (fun _ => Except.ok "")
          (fun id => if id = "b" then Except.error "conflict" else Except.ok ())
          (fun _ => Except.ok ()) ["a", "b", "c"])
        + countFailed (BulkStopContainers (fun _ => Except.ok "")
          (fun id => if id = "b" then Except.error "conflict" else Except.ok ())
          (fun _ => Except.ok ()) ["a", "b", "c"]) = 3
    ∧ (⟨"b", "", false, "conflict"⟩ : BulkOperationResult).success = false
    ∧ StopContainer (fun _ => Except.ok "")
        (fun id => if id = "b" then Except.error "conflict" else Except.ok ())
        (fun _ => Except.ok ()) "b" = some "conflict"
    ∧ countSuccessful (BulkStartContainers (fun _ => Except.ok "")
          (fun _ => Except.ok ()) (fun _ => Except.ok ()) ["a", "b", "c"])
        + countFailed (BulkStartContainers (fun _ => Except.ok "")
          (fun _ => Except.ok ()) (fun _ => Except.ok ()) ["a", "b", "c"]) = 3
    ∧ countSuccessful (BulkRemoveContainers (fun _ => Except.ok "")
          (fun _ _ => Except.ok ()) (fun _ => Except.ok ()) ["a", "b", "c"] false)
        + countFailed (BulkRemoveContainers (fun _ => Except.ok "")
          (fun _ _ => Except.ok ()) (fun _ => Except.ok ()) ["a", "b", "c"] false) = 3 := by
  obtain ⟨h1, h2, h3, h4, h5, h6, h7, h8, h9, h10, h11, h12⟩ :=
    C8_bulk_partition (fun _ => Except.ok "") (fun _ => Except.ok ())
      (fun id => if id = "b" then Except.error "conflict" else Except.ok ())
      (fun _ _ => Except.ok ()) (fun _ => Except.ok ()) ["a", "b", "c"] false
  have hmem : (⟨"b", "", false, "conflict"⟩ : BulkOperationResult)
      ∈ BulkStopContainers (fun _ => Except.ok "")
        (fun id => if id = "b" then Except.error "conflict" else Except.ok ())
        (fun _ => Except.ok ()) ["a", "b", "c"] := by
    rw [h10]
    simp
  have hb := (h3 _ hmem).resolve_left (by simp)
  exact ⟨by simpa using h1, hb.1, by simpa using hb.2, by simpa using h4, by simpa using h7⟩
